import Mathlib

/-!
Verification of the factoryLearning repository: seven capability domains,
each with an abstract interface (src/core/<domain>/base/*.py) and a factory
function (src/core/<domain>/factory.py) that derives a module name and a
class name from a type-name string, imports the module, fetches the class,
constructs it with the domain-specific arguments, and wraps ImportError or
AttributeError into a ValueError chained to the original exception.

The embedding models the Python runtime environment (available
implementation modules and their classes) as an explicit `World` value, and
each factory as a function from that world to an `Except` result paired
with the resulting world.  Object allocation is modelled with a counter so
that distinct constructed instances are observable.
-/

/-- The seven capability domains of the repository, one per
src/core/<domain> package. -/
inductive Domain where
  | broker
  | gateway
  | logger
  | security
  | microservice
  | database
  | cache
deriving DecidableEq, Repr, Fintype

/-- Module-name suffix used by each factory in
`f"implementations.{type}_<suffix>"` (src/core/<domain>/factory.py line 5).
Note the microservice factory uses `service`, not `microservice`. -/
def moduleSuffix : Domain → String
  | .broker => "broker"
  | .gateway => "gateway"
  | .logger => "logger"
  | .security => "security"
  | .microservice => "service"
  | .database => "database"
  | .cache => "cache"

/-- Class-name suffix used by each factory in
`f"{type.capitalize()}<Suffix>"` (src/core/<domain>/factory.py line 6). -/
def classSuffix : Domain → String
  | .broker => "Broker"
  | .gateway => "Gateway"
  | .logger => "Logger"
  | .security => "Security"
  | .microservice => "Service"
  | .database => "Database"
  | .cache => "Cache"

/-- The word appearing in each factory's error message
`f"Unsupported <word> type: {type}"` (src/core/<domain>/factory.py line 13). -/
def errWord : Domain → String
  | .broker => "broker"
  | .gateway => "gateway"
  | .logger => "logger"
  | .security => "security"
  | .microservice => "service"
  | .database => "database"
  | .cache => "cache"

/-- Python str.capitalize for ASCII strings: first character uppercased,
all remaining characters lowercased. -/
def strCapitalize (s : String) : String :=
  match s.data with
  | [] => ""
  | c :: rest => String.mk (c.toUpper :: rest.map Char.toLower)

/-- Derived module name, from line 5 of each factory:
`module_name = f"implementations.{type}_<suffix>"`. -/
def moduleName (d : Domain) (typeName : String) : String :=
  "implementations." ++ typeName ++ "_" ++ moduleSuffix d

/-- Derived class name, from line 6 of each factory:
`class_name = f"{type.capitalize()}<Suffix>"`. -/
def className (d : Domain) (typeName : String) : String :=
  strCapitalize typeName ++ classSuffix d

/-- Message of the ValueError raised on lookup failure, from line 13 of
each factory. -/
def errMsg (d : Domain) (typeName : String) : String :=
  "Unsupported " ++ errWord d ++ " type: " ++ typeName

/-- The operations each domain's abstract base class requires, read off the
abstractmethod declarations in src/core/<domain>/base/*.py. -/
def interfaceOps : Domain → List String
  | .broker => ["publish", "subscribe", "start", "stop"]
  | .gateway => ["add_service", "add_route"]
  | .logger => ["setup"]
  | .security => ["start"]
  | .microservice => ["create_app"]
  | .database => ["get_session"]
  | .cache => ["get_client"]

/-- Python exception values relevant to the factories. -/
inductive PyExn where
  | importError (moduleName : String)
  | attributeError (attr : String)
  | valueError (msg : String)
  | typeError (msg : String)
  | runtimeError (msg : String)
deriving DecidableEq, Repr

/-- Constructor arguments, as passed by the factories. -/
inductive Arg where
  | str (s : String)
  | int (n : Int)
deriving DecidableEq, Repr

/-- A class found inside an implementations module.  `base` records the
capability ABC it subclasses, if any; `methods` the concrete methods it
implements; `raises` an exception its constructor raises, if any (the
implementation modules are external to the repository, so their behaviour
is a parameter of the model). -/
structure PyClass where
  name : String
  base : Option Domain
  methods : List String
  raises : Option PyExn
deriving DecidableEq, Repr

/-- A Python module visible to importlib, with the classes it defines. -/
structure PyModule where
  name : String
  classes : List PyClass
deriving DecidableEq, Repr

/-- The runtime environment: modules available for import, plus an
allocation counter giving each constructed object a distinct identity. -/
structure World where
  modules : List PyModule
  counter : Nat
deriving DecidableEq, Repr

/-- A constructed capability instance.  `objId` models Python object
identity; `ctorArgs` records exactly the arguments the constructor
received. -/
structure Instance where
  clsName : String
  methods : List String
  ctorArgs : List Arg
  objId : Nat
deriving DecidableEq, Repr

/-- An exception as raised to the caller: the exception itself plus its
chained cause (Python `raise ... from e`). -/
structure Raised where
  exn : PyExn
  cause : Option PyExn
deriving DecidableEq, Repr

/-- importlib.import_module: look the module up by name. -/
def findModule (w : World) (name : String) : Option PyModule :=
  w.modules.find? (fun m => m.name == name)

/-- getattr on a module: look the class up by name. -/
def findClass (m : PyModule) (name : String) : Option PyClass :=
  m.classes.find? (fun c => c.name == name)

/-- Abstract methods of the capability ABC left unimplemented by the
class; Python ABCMeta refuses instantiation while any remain. -/
def abstractRemaining (cls : PyClass) : List String :=
  match cls.base with
  | some d => (interfaceOps d).filter (fun op => !(cls.methods.contains op))
  | none => []

/-- Calling the class: ABCMeta raises TypeError if abstract methods
remain; otherwise the constructor either raises `cls.raises` or returns a
fresh instance recording the arguments it received. -/
def constructClass (w : World) (cls : PyClass) (args : List Arg) :
    Except PyExn (Instance × World) :=
  if abstractRemaining cls ≠ [] then
    .error (.typeError ("Cannot instantiate abstract class " ++ cls.name))
  else
    match cls.raises with
    | some e => .error e
    | none =>
        .ok ({ clsName := cls.name, methods := cls.methods,
               ctorArgs := args, objId := w.counter },
             { w with counter := w.counter + 1 })

/-- Body of the try block shared by all seven factories (lines 9 to 11 of
each factory.py): import the derived module, fetch the derived class, call
it with the supplied arguments. -/
def tryBody (d : Domain) (typeName : String) (args : List Arg) (w : World) :
    Except PyExn (Instance × World) :=
  match findModule w (moduleName d typeName) with
  | none => .error (.importError (moduleName d typeName))
  | some m =>
      match findClass m (className d typeName) with
      | none => .error (.attributeError (className d typeName))
      | some cls => constructClass w cls args

/-- True exactly for the exception classes named in the except clause of
every factory: `except (ImportError, AttributeError) as e`. -/
def isCaught : PyExn → Bool
  | .importError _ => true
  | .attributeError _ => true
  | _ => false

/-- The factory shape shared verbatim by all seven factory.py files: run
the try body; if it raises ImportError or AttributeError, raise
`ValueError(f"Unsupported <word> type: {type}") from e`; let any other
exception propagate unchanged. -/
def createFactory (d : Domain) (typeName : String) (args : List Arg)
    (w : World) : Except Raised Instance × World :=
  match tryBody d typeName args w with
  | .ok (inst, w1) => (.ok inst, w1)
  | .error e =>
      if isCaught e then
        (.error { exn := .valueError (errMsg d typeName), cause := some e }, w)
      else
        (.error { exn := e, cause := none }, w)

/-- create_message_broker (src/core/message_broker/factory.py): forwards
broker_url to the constructor. -/
def create_message_broker (broker_type broker_url : String) (w : World) :
    Except Raised Instance × World :=
  createFactory .broker broker_type [.str broker_url] w

/-- create_api_gateway (src/core/api_gateway/factory.py): forwards
admin_url to the constructor. -/
def create_api_gateway (gateway_type admin_url : String) (w : World) :
    Except Raised Instance × World :=
  createFactory .gateway gateway_type [.str admin_url] w

/-- create_logger (src/core/logging/factory.py): forwards host and port to
the constructor. -/
def create_logger (logger_type host : String) (port : Int) (w : World) :
    Except Raised Instance × World :=
  createFactory .logger logger_type [.str host, .int port] w

/-- create_security (src/core/security/factory.py): forwards port to the
constructor. -/
def create_security (security_type : String) (port : Int) (w : World) :
    Except Raised Instance × World :=
  createFactory .security security_type [.int port] w

/-- create_microservice (src/core/microservice/factory.py): the
constructor is called with no arguments. -/
def create_microservice (service_type : String) (w : World) :
    Except Raised Instance × World :=
  createFactory .microservice service_type [] w

/-- create_database (src/core/database/factory.py): forwards db_url to the
constructor. -/
def create_database (database_type db_url : String) (w : World) :
    Except Raised Instance × World :=
  createFactory .database database_type [.str db_url] w

/-- create_cache (src/core/cache/factory.py): forwards cache_url to the
constructor. -/
def create_cache (cache_type cache_url : String) (w : World) :
    Except Raised Instance × World :=
  createFactory .cache cache_type [.str cache_url] w

/-- Spec-side derivation rule for the module name, following the spec's
words: module = implementations.<type_name>_<domain>, where <domain> is
the spec's name for the capability domain. -/
def domainName : Domain → String
  | .broker => "broker"
  | .gateway => "gateway"
  | .logger => "logger"
  | .security => "security"
  | .microservice => "microservice"
  | .database => "database"
  | .cache => "cache"

/-- Spec-side derived module name (for comparison against `moduleName`,
which is read off the source). -/
def specModuleName (d : Domain) (typeName : String) : String :=
  "implementations." ++ typeName ++ "_" ++ domainName d

/-- Spec-side derived class name: capitalized <type_name><Domain>. -/
def specClassName (d : Domain) (typeName : String) : String :=
  strCapitalize typeName ++ strCapitalize (domainName d)

/-- Projection: the exception raised by a factory result, if any. -/
def raisedExn : Except Raised Instance → Option PyExn
  | .error r => some r.exn
  | .ok _ => none

/-- Looking a module up depends only on the available modules. -/
theorem findModule_congr (w w1 : World) (h : w1.modules = w.modules)
    (name : String) : findModule w1 name = findModule w name := by
  simp [findModule, h]

/-- Characterization of a successful try body: the module and class were
found, no abstract method remained, the constructor did not raise, and the
instance records the class, its methods, the arguments, and a fresh id. -/
theorem tryBody_ok (d : Domain) (tn : String) (args : List Arg) (w : World)
    (i : Instance) (w1 : World) (h : tryBody d tn args w = .ok (i, w1)) :
    ∃ m cls, findModule w (moduleName d tn) = some m ∧
      findClass m (className d tn) = some cls ∧
      abstractRemaining cls = [] ∧ cls.raises = none ∧
      i = ⟨cls.name, cls.methods, args, w.counter⟩ ∧
      w1 = ⟨w.modules, w.counter + 1⟩ := by
  unfold tryBody at h
  split at h
  · exact absurd h (by simp)
  · rename_i m hm
    split at h
    · exact absurd h (by simp)
    · rename_i cls hcls
      unfold constructClass at h
      split at h
      · exact absurd h (by simp)
      · rename_i hab
        split at h
        · exact absurd h (by simp)
        · rename_i hr
          rw [not_ne_iff] at hab
          obtain ⟨hi, hw⟩ := Prod.mk.injEq .. ▸ Except.ok.inj h
          exact ⟨m, cls, hm, hcls, hab, hr, hi.symm, hw.symm⟩

/-- A successful factory call comes from a successful try body. -/
theorem createFactory_ok (d : Domain) (tn : String) (args : List Arg)
    (w : World) (i : Instance) (w1 : World)
    (h : createFactory d tn args w = (.ok i, w1)) :
    tryBody d tn args w = .ok (i, w1) := by
  unfold createFactory at h
  split at h
  · rename_i p hp
    obtain ⟨h1, h2⟩ := Prod.mk.injEq .. ▸ h
    rw [hp, Except.ok.inj h1, h2]
  · rename_i e he
    split at h
    · exact absurd (Prod.mk.injEq .. ▸ h).1 (by simp)
    · exact absurd (Prod.mk.injEq .. ▸ h).1 (by simp)

/-- A factory call whose derived module does not exist raises the
normalized ValueError chained to the ImportError. -/
theorem createFactory_no_module (d : Domain) (tn : String) (args : List Arg)
    (w : World) (h : findModule w (moduleName d tn) = none) :
    createFactory d tn args w =
      (.error ⟨.valueError (errMsg d tn),
        some (.importError (moduleName d tn))⟩, w) := by
  unfold createFactory tryBody
  rw [h]
  rfl

/-- A factory call whose derived module exists but lacks the derived class
raises the normalized ValueError chained to the AttributeError. -/
theorem createFactory_no_class (d : Domain) (tn : String) (args : List Arg)
    (w : World) (m : PyModule) (hm : findModule w (moduleName d tn) = some m)
    (hc : findClass m (className d tn) = none) :
    createFactory d tn args w =
      (.error ⟨.valueError (errMsg d tn),
        some (.attributeError (className d tn))⟩, w) := by
  unfold createFactory tryBody
  simp [hm, hc, isCaught]

/-- A factory call whose constructor raises exception e yields the
normalized ValueError chained to e when e is an ImportError or
AttributeError, and yields e itself unchained otherwise. -/
theorem createFactory_ctor_raises (d : Domain) (tn : String)
    (args : List Arg) (w : World) (m : PyModule) (cls : PyClass) (e : PyExn)
    (hm : findModule w (moduleName d tn) = some m)
    (hc : findClass m (className d tn) = some cls)
    (hab : abstractRemaining cls = []) (hr : cls.raises = some e) :
    createFactory d tn args w =
      if isCaught e then
        (.error ⟨.valueError (errMsg d tn), some e⟩, w)
      else
        (.error ⟨e, none⟩, w) := by
  unfold createFactory tryBody constructClass
  simp [hm, hc, hab, hr]

/-- Claim C1: for every capability domain and every type_name for which no
implementation can be located under the derived identity (module missing
or class missing from the module), the factory raises the single
normalized unsupported-type ValueError, whose message carries the exact
type_name requested together with the domain's error word, and the error
word identifies the domain uniquely. -/
theorem c1_unsupported_error (d : Domain) (tn : String) (args : List Arg)
    (w : World)
    (h : findModule w (moduleName d tn) = none ∨
      ∃ m, findModule w (moduleName d tn) = some m ∧
        findClass m (className d tn) = none) :
    raisedExn (createFactory d tn args w).1 =
      some (.valueError (errMsg d tn)) ∧
    errMsg d tn = "Unsupported " ++ errWord d ++ " type: " ++ tn ∧
    (∀ d1 d2 : Domain, errWord d1 = errWord d2 → d1 = d2) := by
  refine ⟨?_, rfl, by decide⟩
  rcases h with h | ⟨m, hm, hc⟩
  · rw [createFactory_no_module d tn args w h]
    rfl
  · rw [createFactory_no_class d tn args w m hm hc]
    rfl

/-- Witness for C1 at the cache domain with unregistered type bogus. -/
theorem c1_witness :
    raisedExn (createFactory .cache "bogus" [.str "x"] ⟨[], 0⟩).1 =
      some (.valueError (errMsg .cache "bogus")) :=
  (c1_unsupported_error .cache "bogus" [.str "x"] ⟨[], 0⟩
    (.inl (by decide))).1

/-- Claim C2 counterexample: in the microservice domain the source derives
module implementations.<type>_service and class <Type>Service, not the
spec rule's implementations.<type>_microservice and <Type>Microservice. -/
theorem c2_counterexample :
    moduleName .microservice "flask" = "implementations.flask_service" ∧
    moduleName .microservice "flask" ≠ specModuleName .microservice "flask" ∧
    className .microservice "flask" = "FlaskService" ∧
    className .microservice "flask" ≠ specClassName .microservice "flask" := by
  refine ⟨rfl, ?_, ?_, ?_⟩ <;> decide

/-- Claim C2 (amended): the derivation rule module =
implementations.<type_name>_<domain>, class = capitalized
<type_name><Domain> holds verbatim for broker, gateway, logger, security,
database and cache, while the microservice domain instead uses the token
service: module implementations.<type_name>_service, class capitalized
<type_name>Service; for example type_name redis with domain cache gives
module implementations.redis_cache and class RedisCache. -/
theorem c2_amended_rule (d : Domain) (tn : String) :
    (d ≠ .microservice →
      moduleName d tn = specModuleName d tn ∧
      className d tn = specClassName d tn) ∧
    (d = .microservice →
      moduleName d tn = "implementations." ++ tn ++ "_" ++ "service" ∧
      className d tn = strCapitalize tn ++ "Service") ∧
    moduleName .cache "redis" = "implementations.redis_cache" ∧
    className .cache "redis" = "RedisCache" := by
  refine ⟨?_, ?_, by decide, by decide⟩
  · intro hd
    cases d
    case microservice => exact absurd rfl hd
    all_goals
      refine ⟨rfl, ?_⟩
      unfold className specClassName classSuffix domainName
      congr 1
  · intro hd
    subst hd
    exact ⟨rfl, rfl⟩

/-- Witness for C2 (amended) at the cache domain with type_name redis. -/
theorem c2_witness :
    moduleName .cache "redis" = specModuleName .cache "redis" ∧
    className .cache "redis" = specClassName .cache "redis" :=
  (c2_amended_rule .cache "redis").1 (by decide)

/-- Claim C9: on either lookup failure the normalized ValueError chains
the original exception as its cause: the ImportError naming the derived
module when the module is missing, the AttributeError naming the derived
class when the class is missing, and these two causes are distinguishable
from one another. -/
theorem c9_cause_chained (d : Domain) (tn : String) (args : List Arg)
    (w : World) :
    (findModule w (moduleName d tn) = none →
      (createFactory d tn args w).1 =
        .error ⟨.valueError (errMsg d tn),
          some (.importError (moduleName d tn))⟩) ∧
    (∀ m, findModule w (moduleName d tn) = some m →
      findClass m (className d tn) = none →
      (createFactory d tn args w).1 =
        .error ⟨.valueError (errMsg d tn),
          some (.attributeError (className d tn))⟩) ∧
    (∀ s t : String, PyExn.importError s ≠ PyExn.attributeError t) := by
  refine ⟨?_, ?_, fun s t h => PyExn.noConfusion h⟩
  · intro h
    rw [createFactory_no_module d tn args w h]
  · intro m hm hc
    rw [createFactory_no_class d tn args w m hm hc]

/-- Witness for C9 at the cache domain with an empty module environment. -/
theorem c9_witness :
    (createFactory .cache "bogus" [.str "x"] ⟨[], 0⟩).1 =
      .error ⟨.valueError (errMsg .cache "bogus"),
        some (.importError (moduleName .cache "bogus"))⟩ :=
  (c9_cause_chained .cache "bogus" [.str "x"] ⟨[], 0⟩).1 (by decide)

/-- A cache implementation class whose constructor raises a RuntimeError,
standing for an implementation module outside this repository. -/
def boomCacheClass : PyClass :=
  { name := "BoomCache", base := some .cache, methods := ["get_client"],
    raises := some (.runtimeError "boom") }

/-- An environment registering boomCacheClass under the derived cache
identity implementations.boom_cache / BoomCache. -/
def boomWorld : World :=
  { modules := [{ name := "implementations.boom_cache",
                  classes := [boomCacheClass] }],
    counter := 0 }

/-- A cache implementation class whose constructor raises an
AttributeError (an exception class the factory's except clause names). -/
def flakyCacheClass : PyClass :=
  { name := "FlakyCache", base := some .cache, methods := ["get_client"],
    raises := some (.attributeError "get_url") }

/-- An environment registering flakyCacheClass under the derived cache
identity implementations.flaky_cache / FlakyCache. -/
def flakyWorld : World :=
  { modules := [{ name := "implementations.flaky_cache",
                  classes := [flakyCacheClass] }],
    counter := 0 }

/-- Claim C3 counterexample: with the implementation class located but its
constructor raising RuntimeError boom, create_cache lets the RuntimeError
escape unchanged instead of raising the normalized unsupported-type
ValueError. -/
theorem c3_counterexample :
    (create_cache "boom" "redis://x" boomWorld).1 =
      .error { exn := .runtimeError "boom", cause := none } ∧
    PyExn.runtimeError "boom" ≠ .valueError (errMsg .cache "boom") := by
  refine ⟨by rfl, by decide⟩

/-- Claim C3 (amended): when the implementation class is located but its
constructor raises, the factory raises the normalized unsupported-type
ValueError only when the constructor's exception is an ImportError or an
AttributeError (the classes named in the except clause); it then chains
that exception as the cause. -/
theorem c3_amended_wrap (d : Domain) (tn : String) (args : List Arg)
    (w : World) (m : PyModule) (cls : PyClass) (e : PyExn)
    (hm : findModule w (moduleName d tn) = some m)
    (hc : findClass m (className d tn) = some cls)
    (hab : abstractRemaining cls = []) (hr : cls.raises = some e)
    (he : isCaught e = true) :
    (createFactory d tn args w).1 =
      .error { exn := .valueError (errMsg d tn), cause := some e } := by
  rw [createFactory_ctor_raises d tn args w m cls e hm hc hab hr, he]
  rfl

/-- Witness for C3 (amended): a constructor raising AttributeError is
wrapped into the normalized ValueError with the AttributeError as cause. -/
theorem c3_witness :
    (createFactory .cache "flaky" [.str "redis://x"] flakyWorld).1 =
      .error { exn := .valueError (errMsg .cache "flaky"),
               cause := some (.attributeError "get_url") } :=
  c3_amended_wrap .cache "flaky" [.str "redis://x"] flakyWorld
    { name := "implementations.flaky_cache", classes := [flakyCacheClass] }
    flakyCacheClass (.attributeError "get_url")
    (by decide) (by decide) (by decide) (by decide) (by decide)

/-- Claim C4 counterexample: a construction-time AttributeError does not
propagate unmodified; the factory catches it and wraps it into the
normalized ValueError, chaining the original exception. -/
theorem c4_counterexample :
    (create_cache "flaky" "redis://x" flakyWorld).1 =
      .error { exn := .valueError (errMsg .cache "flaky"),
               cause := some (.attributeError "get_url") } ∧
    PyExn.valueError (errMsg .cache "flaky") ≠ .attributeError "get_url" := by
  refine ⟨by rfl, by decide⟩

/-- Claim C4 (amended): a construction-time exception propagates to the
caller unmodified and unchained exactly when it is not an ImportError or
AttributeError; those two classes are caught by the factory's except
clause and wrapped into the normalized ValueError. -/
theorem c4_amended_propagate (d : Domain) (tn : String) (args : List Arg)
    (w : World) (m : PyModule) (cls : PyClass) (e : PyExn)
    (hm : findModule w (moduleName d tn) = some m)
    (hc : findClass m (className d tn) = some cls)
    (hab : abstractRemaining cls = []) (hr : cls.raises = some e)
    (he : isCaught e = false) :
    createFactory d tn args w = (.error { exn := e, cause := none }, w) := by
  rw [createFactory_ctor_raises d tn args w m cls e hm hc hab hr, he]
  rfl

/-- Witness for C4 (amended): a constructor raising RuntimeError escapes
the cache factory raw, with no cause chained and the world unchanged. -/
theorem c4_witness :
    createFactory .cache "boom" [.str "redis://x"] boomWorld =
      (.error { exn := .runtimeError "boom", cause := none }, boomWorld) :=
  c4_amended_propagate .cache "boom" [.str "redis://x"] boomWorld
    { name := "implementations.boom_cache", classes := [boomCacheClass] }
    boomCacheClass (.runtimeError "boom")
    (by decide) (by decide) (by decide) (by decide) (by decide)

/-- Characterization of a successful factory call, via the try body. -/
theorem createFactory_ok_spec (d : Domain) (tn : String) (args : List Arg)
    (w : World) (i : Instance) (w1 : World)
    (h : createFactory d tn args w = (.ok i, w1)) :
    ∃ m cls, findModule w (moduleName d tn) = some m ∧
      findClass m (className d tn) = some cls ∧
      abstractRemaining cls = [] ∧ cls.raises = none ∧
      i = ⟨cls.name, cls.methods, args, w.counter⟩ ∧
      w1 = ⟨w.modules, w.counter + 1⟩ :=
  tryBody_ok d tn args w i w1 (createFactory_ok d tn args w i w1 h)

/-- Converse: found module, found class, no abstract method remaining and
a non-raising constructor give a successful call with a fresh instance. -/
theorem createFactory_success (d : Domain) (tn : String) (args : List Arg)
    (w : World) (m : PyModule) (cls : PyClass)
    (hm : findModule w (moduleName d tn) = some m)
    (hc : findClass m (className d tn) = some cls)
    (hab : abstractRemaining cls = []) (hr : cls.raises = none) :
    createFactory d tn args w =
      (.ok ⟨cls.name, cls.methods, args, w.counter⟩,
       ⟨w.modules, w.counter + 1⟩) := by
  unfold createFactory tryBody constructClass
  simp [hm, hc, hab, hr]

/-- Claim C5: for all seven domains, when the class located under the
derived identity is an implementation of that domain's abstract base class
and the factory call succeeds, the returned instance provides every
operation of the domain's capability interface (the abstract base class
refuses instantiation while any abstract operation is unimplemented). -/
theorem c5_interface_ops (d : Domain) (tn : String) (args : List Arg)
    (w : World) (m : PyModule) (cls : PyClass) (i : Instance) (w1 : World)
    (hm : findModule w (moduleName d tn) = some m)
    (hc : findClass m (className d tn) = some cls)
    (hbase : cls.base = some d)
    (hok : createFactory d tn args w = (.ok i, w1)) :
    ∀ op ∈ interfaceOps d, op ∈ i.methods := by
  obtain ⟨m2, cls2, hm2, hc2, hab, hr, hi, hw⟩ :=
    createFactory_ok_spec d tn args w i w1 hok
  rw [hm] at hm2
  injection hm2 with hmm
  subst hmm
  rw [hc] at hc2
  injection hc2 with hcc
  subst hcc
  unfold abstractRemaining at hab
  rw [hbase] at hab
  rw [List.filter_eq_nil_iff] at hab
  intro op hop
  have h1 := hab op hop
  rw [hi]
  simpa using h1

/-- Claim C6: for every capability domain, calling the factory twice with
the same type_name and arguments yields two freshly constructed, distinct
instances: the second call also succeeds and its instance differs from the
first (fresh object identity), so no instance is cached or shared. -/
theorem c6_fresh_instances (d : Domain) (tn : String) (args : List Arg)
    (w : World) (i1 : Instance) (w1 : World)
    (h1 : createFactory d tn args w = (.ok i1, w1)) :
    (createFactory d tn args w1).1 = .ok { i1 with objId := i1.objId + 1 } ∧
    { i1 with objId := i1.objId + 1 } ≠ i1 := by
  obtain ⟨m, cls, hm, hc, hab, hr, hi, hw⟩ :=
    createFactory_ok_spec d tn args w i1 w1 h1
  subst hi
  subst hw
  constructor
  · have hm1 : findModule ⟨w.modules, w.counter + 1⟩ (moduleName d tn) =
        some m := hm
    rw [createFactory_success d tn args ⟨w.modules, w.counter + 1⟩ m cls
      hm1 hc hab hr]
  · simp

/-- Helper: a successful factory call forwards exactly the supplied
arguments to the implementation constructor. -/
theorem createFactory_args (d : Domain) (tn : String) (args : List Arg)
    (w : World) (i : Instance) (w1 : World)
    (h : createFactory d tn args w = (.ok i, w1)) : i.ctorArgs = args := by
  obtain ⟨m, cls, _, _, _, _, hi, _⟩ :=
    createFactory_ok_spec d tn args w i w1 h
  rw [hi]

/-- Claim C7: each of the seven per-domain factory functions forwards
exactly the observed constructor arguments and no others: the broker
factory passes the url, the gateway factory the admin_url, the logger
factory host and port, the security factory the port, the microservice
factory nothing, the database factory the db_url and the cache factory the
cache_url. -/
theorem c7_forwarded_args :
    (∀ bt burl w i w1, create_message_broker bt burl w = (.ok i, w1) →
      i.ctorArgs = [.str burl]) ∧
    (∀ gt aurl w i w1, create_api_gateway gt aurl w = (.ok i, w1) →
      i.ctorArgs = [.str aurl]) ∧
    (∀ lt host port w i w1, create_logger lt host port w = (.ok i, w1) →
      i.ctorArgs = [.str host, .int port]) ∧
    (∀ st port w i w1, create_security st port w = (.ok i, w1) →
      i.ctorArgs = [.int port]) ∧
    (∀ mt w i w1, create_microservice mt w = (.ok i, w1) →
      i.ctorArgs = []) ∧
    (∀ dt durl w i w1, create_database dt durl w = (.ok i, w1) →
      i.ctorArgs = [.str durl]) ∧
    (∀ ct curl w i w1, create_cache ct curl w = (.ok i, w1) →
      i.ctorArgs = [.str curl]) :=
  ⟨fun bt burl w i w1 h => createFactory_args .broker bt [.str burl] w i w1 h,
   fun gt aurl w i w1 h => createFactory_args .gateway gt [.str aurl] w i w1 h,
   fun lt host port w i w1 h =>
     createFactory_args .logger lt [.str host, .int port] w i w1 h,
   fun st port w i w1 h => createFactory_args .security st [.int port] w i w1 h,
   fun mt w i w1 h => createFactory_args .microservice mt [] w i w1 h,
   fun dt durl w i w1 h => createFactory_args .database dt [.str durl] w i w1 h,
   fun ct curl w i w1 h => createFactory_args .cache ct [.str curl] w i w1 h⟩

/-- Claim C8: for every capability domain, a factory call leaves the
module environment (the mapping from derived identity to implementation
class) unchanged, whether the call succeeds or fails. -/
theorem c8_registry_frame (d : Domain) (tn : String) (args : List Arg)
    (w : World) : ((createFactory d tn args w).2).modules = w.modules := by
  unfold createFactory
  rcases htb : tryBody d tn args w with e | p
  · dsimp only
    split <;> rfl
  · obtain ⟨i, w1⟩ := p
    obtain ⟨m, cls, _, _, _, _, _, hw⟩ := tryBody_ok d tn args w i w1 htb
    rw [hw]

/-- A well-formed cache implementation registered under the derived
identity implementations.redis_cache / RedisCache. -/
def redisCacheClass : PyClass :=
  { name := "RedisCache", base := some .cache,
    methods := ["get_client", "ping"], raises := none }

/-- An environment registering redisCacheClass. -/
def redisWorld : World :=
  { modules := [{ name := "implementations.redis_cache",
                  classes := [redisCacheClass] }],
    counter := 0 }

/-- Witness for C5: the instance the cache factory builds from
redisCacheClass provides the cache interface operation get_client. -/
theorem c5_witness :
    "get_client" ∈
      (Instance.mk "RedisCache" ["get_client", "ping"]
        [.str "redis://x"] 0).methods :=
  c5_interface_ops .cache "redis" [.str "redis://x"] redisWorld
    { name := "implementations.redis_cache", classes := [redisCacheClass] }
    redisCacheClass
    (Instance.mk "RedisCache" ["get_client", "ping"] [.str "redis://x"] 0)
    ⟨[{ name := "implementations.redis_cache",
        classes := [redisCacheClass] }], 1⟩
    (by rfl) (by rfl) (by rfl) (by rfl) "get_client" (by decide)

/-- Witness for C6: a second cache resolution in the environment left by
the first yields a distinct fresh instance. -/
theorem c6_witness :
    (createFactory .cache "redis" [.str "redis://x"]
        ⟨[{ name := "implementations.redis_cache",
            classes := [redisCacheClass] }], 1⟩).1 =
      .ok (Instance.mk "RedisCache" ["get_client", "ping"]
        [.str "redis://x"] 1) ∧
    Instance.mk "RedisCache" ["get_client", "ping"] [.str "redis://x"] 1 ≠
      Instance.mk "RedisCache" ["get_client", "ping"] [.str "redis://x"] 0 :=
  c6_fresh_instances .cache "redis" [.str "redis://x"] redisWorld
    (Instance.mk "RedisCache" ["get_client", "ping"] [.str "redis://x"] 0)
    ⟨[{ name := "implementations.redis_cache",
        classes := [redisCacheClass] }], 1⟩
    (by rfl)

/-- Witness for C7 at the cache factory: the constructed instance received
exactly the cache_url argument. -/
theorem c7_witness :
    (Instance.mk "RedisCache" ["get_client", "ping"]
      [.str "redis://x"] 0).ctorArgs = [.str "redis://x"] :=
  c7_forwarded_args.2.2.2.2.2.2 "redis" "redis://x" redisWorld
    (Instance.mk "RedisCache" ["get_client", "ping"] [.str "redis://x"] 0)
    ⟨[{ name := "implementations.redis_cache",
        classes := [redisCacheClass] }], 1⟩
    (by rfl)

/-- Bool test: s and t agree on their first character and their remaining
characters agree up to letter case. -/
def sameTailModuloCase (s t : String) : Bool :=
  match s.data, t.data with
  | [], [] => true
  | c :: cs, c2 :: cs2 =>
      c == c2 && cs.map Char.toLower == cs2.map Char.toLower
  | _, _ => false

/-- Claim C10: str.capitalize uppercases the first character and
lowercases the rest, so any two type_names that differ only in the case of
non-initial characters derive the same class name (while inmemory and
inMemory derive different module names), and the empty type_name derives
an empty class-name prefix, leaving just the domain suffix. -/
theorem c10_capitalize :
    (∀ d : Domain, ∀ s t : String, sameTailModuloCase s t = true →
      className d s = className d t) ∧
    className .cache "inmemory" = className .cache "inMemory" ∧
    moduleName .cache "inmemory" ≠ moduleName .cache "inMemory" ∧
    strCapitalize "" = "" ∧
    (∀ d : Domain, className d "" = classSuffix d) := by
  refine ⟨?_, by decide, by decide, rfl, fun d => rfl⟩
  intro d s t h
  obtain ⟨sd⟩ := s
  obtain ⟨td⟩ := t
  unfold className strCapitalize
  unfold sameTailModuloCase at h
  match sd, td, h with
  | [], [], _ => rfl
  | c :: cs, c2 :: cs2, h =>
      simp only [Bool.and_eq_true, beq_iff_eq] at h
      obtain ⟨h1, h2⟩ := h
      subst h1
      dsimp only
      rw [h2]

/-- Witness for C10: type_names abc and aBC derive the same cache class
name. -/
theorem c10_witness : className .cache "abc" = className .cache "aBC" :=
  c10_capitalize.1 .cache "abc" "aBC" (by decide)
